import Mathlib

/-!
# Verification of the Movie-Recommendation-App client/server core

A shallow embedding, in Lean 4, of the parts of the
Movie-Recommendation-App repository that its design specification makes
claims about: the best-trailer selection and multi-page aggregation of the
catalog client (`src/utils/sharing.ts` / `lib/tmdb`), the movie and TV
Zustand stores with their in-memory caches (`src/store/movieStore.ts`,
`tvSeriesStore`), the favorites/watchlist operations of the auth store
(`src/store/authStore.ts`), and the session/password-reset handlers of the
Express auth controller and middleware.

Conventions used throughout:
* JavaScript numbers that only ever hold non-negative integers (page
  numbers, counts, millisecond timestamps) are embedded as `Nat`;
  timestamps compared by subtraction are embedded as `Int` where the
  source subtraction may be negative.
* Fallible network calls are embedded by passing the outcome of the
  single upstream request an operation makes as an `Except String _`
  argument; a rejected promise (or an invalid-response `throw` inside the
  `try` block) is the `.error` case, caught by the source's `catch`.
* Zustand `set` calls become functional record updates; the store
  operations become state transformers that additionally return the list
  of upstream requests they issued.
* `Record<string, T>` caches become functions `String → Option T`;
  `{...cache, [key]: v}` becomes a pointwise update.
-/

namespace MovieApp

/-! ## Catalog data types (src/types/movie.ts) -/

/-- A video entry as returned by the `/videos` endpoints
(`VideoResult` in `src/types/movie.ts`).  The source field `type` is a
reserved word in Lean, so it is embedded as `videoType`. -/
structure VideoResult where
  id : String
  name : String
  key : String
  site : String
  videoType : String
  official : Bool
deriving Repr, DecidableEq

/-- The fields of a `MovieResult` (`src/types/movie.ts`) that the verified
operations inspect: identity, genre ids (for the client-side genre filter)
and the release date (for the search sort).  `release_date` is `none` when
the source value is missing or empty (both are falsy in JS). -/
structure MovieResult where
  id : Nat
  title : String
  genre_ids : List Nat
  release_date : Option String
deriving Repr, DecidableEq

/-- The fields of a TV series entry (`TVSeries` in the TV store) used by
the verified operations. -/
structure TVSeries where
  id : Nat
  name : String
deriving Repr, DecidableEq

/-! ## Best-trailer selection (src/utils/sharing.ts, getBestTrailer) -/

/-- The preferred type order of `getBestTrailer`
(`const trailerTypes = ['Trailer', 'Teaser', 'Clip', 'Behind the Scenes']`). -/
def trailerTypes : List String := ["Trailer", "Teaser", "Clip", "Behind the Scenes"]

/-- The `for (const type of trailerTypes)` loop of `getBestTrailer`: for
each type in order, first an official YouTube video of that type, then any
YouTube video of that type. -/
def bestOfTypes (videos : List VideoResult) : List String → Option VideoResult
  | [] => none
  | t :: rest =>
    match videos.find? (fun v => v.videoType == t && v.site == "YouTube" && v.official == true) with
    | some v => some v
    | none =>
      match videos.find? (fun v => v.videoType == t && v.site == "YouTube") with
      | some v => some v
      | none => bestOfTypes videos rest

/-- The `getBestTrailer` (src/utils/sharing.ts lines 415-441):
`if (!videos || videos.length === 0) return null;` then the type loop,
then `videos.find(video => video.site === 'YouTube') || null`. -/
def getBestTrailer (videos : List VideoResult) : Option VideoResult :=
  if videos.isEmpty then none
  else
    match bestOfTypes videos trailerTypes with
    | some v => some v
    | none => videos.find? (fun v => v.site == "YouTube")

/-! ## Session timeout middleware (src/server/middleware/authMiddleware.js) -/

/-- Outcome of the `sessionTimeout` middleware: pass the request on
(`next()`) or reject it with HTTP 401 "Session expired". -/
inductive SessionCheck where
  | pass
  | expired401
deriving Repr, DecidableEq

/-- The `const timeout = 30 * 60 * 1000; // 30 minutes` (authMiddleware.js). -/
def sessionTimeoutMs : Int := 30 * 60 * 1000

/-- The `sessionTimeout` middleware (authMiddleware.js lines 18-28):
401 when `now - sessionStart > timeout`, otherwise `next()`.
`sessionStart` is the issuance timestamp placed into the JWT by
`registerUser`/`loginUser` (`jwt.sign({id, sessionStart: Date.now()}, …)`). -/
def sessionTimeout (sessionStart now : Int) : SessionCheck :=
  if now - sessionStart > sessionTimeoutMs then .expired401 else .pass

/-! ## Favorites / watchlist operations

Two implementations exist in the repository:
* the auth store at `src/store/authStore.ts` lines 206-255 toggles
  membership and syncs with the backend (ids are numbers there);
* the store variant appended in `src/store/movieStore.ts` lines 501-523
  (and `authStore.ts` lines 399-421) appends unconditionally (ids are
  strings there).
-/

/-- The `addToFavorites` of `src/store/authStore.ts` (lines 206-229):
`state.favorites.includes(id) ? state.favorites.filter(movieId => movieId !== id)
: [...state.favorites, id]`.  The backend sync is fire-and-forget and does
not affect the returned list. -/
def addToFavorites (favorites : List Nat) (id : Nat) : List Nat :=
  if favorites.contains id then favorites.filter (fun movieId => movieId != id)
  else favorites ++ [id]

/-- The `addToWatchlist` of `src/store/authStore.ts` (lines 232-255), same
toggle on the watchlist. -/
def addToWatchlist (watchlist : List Nat) (id : Nat) : List Nat :=
  if watchlist.contains id then watchlist.filter (fun movieId => movieId != id)
  else watchlist ++ [id]

/-- The `addToFavorites` of the variant at `src/store/movieStore.ts` lines
501-505: `favorites: [...state.favorites, movieId]` — unconditional
append, no toggle. -/
def addToFavoritesAppend (favorites : List String) (movieId : String) : List String :=
  favorites ++ [movieId]

/-- The `addToWatchlist` of the same variant (movieStore.ts lines 513-517). -/
def addToWatchlistAppend (watchlist : List String) (movieId : String) : List String :=
  watchlist ++ [movieId]

/-! ## Password-reset request (src/unnamed/part_000, requestPasswordReset) -/

/-- The JSON body of a `requestPasswordReset` response: HTTP status,
`message`, and the optional `resetToken`/`resetUrl` fields that are only
present in one branch. -/
structure ResetResponse where
  status : Nat
  message : String
  resetToken : Option String
  resetUrl : Option String
deriving Repr, DecidableEq

/-- The `User.findOne({ email })`, with the user table abstracted as a list of
(email, user id) pairs. -/
def findUserByEmail (db : List (String × String)) (email : String) : Option String :=
  (db.find? (fun u => u.1 == email)).map (·.2)

/-- The `requestPasswordReset` (part_000 lines 266-302).  `sign` abstracts
`jwt.sign({id: user._id, purpose: 'password_reset'}, …)` applied to the
found user's id.  `if (!email)` is the empty-string (falsy) check. -/
def requestPasswordReset (db : List (String × String)) (sign : String → String)
    (email : String) : ResetResponse :=
  if email = "" then
    { status := 400, message := "Email is required", resetToken := none, resetUrl := none }
  else
    match findUserByEmail db email with
    | none =>
      { status := 200
        message := "If your email exists in our system, you will receive a reset link"
        resetToken := none, resetUrl := none }
    | some uid =>
      let resetToken := sign uid
      { status := 200
        message := "If your email exists in our system, you will receive a reset link"
        resetToken := some resetToken
        resetUrl := some ("/reset-password?token=" ++ resetToken) }

/-! ## Decimal digits

`digitVal`/`decodeDigits` decode a big-endian list of decimal digit
characters.  They embed the year extraction of the search sort (below)
and are used to prove that `Nat.repr` — the `toString` behind the cache
keys' template literals — is injective. -/

/-- Numeric value of a decimal digit character. -/
def digitVal (c : Char) : Nat := c.toNat - '0'.toNat

/-- Decode a big-endian list of decimal digit characters. -/
def decodeDigits (l : List Char) : Nat := l.foldl (fun a c => 10 * a + digitVal c) 0

/-! ## Search-result sort (src/store/movieStore.ts, searchForMovies)

`[...data.results].sort((a, b) => yearB - yearA)` with
`yearX = x.release_date ? new Date(x.release_date).getFullYear() : 0`.
`Array.prototype.sort` is stable (ES2019), so the source sort is embedded
as a stable sort (Mathlib's `insertionSort`) by release year descending.
-/

/-- Year extraction of the comparator: 0 for a missing/empty date, else
`new Date(s).getFullYear()`, which for the catalog's ISO `YYYY-MM-DD`
dates is the value of the leading four digit characters. -/
def releaseYear (m : MovieResult) : Nat :=
  match m.release_date with
  | none => 0
  | some s => decodeDigits (s.data.take 4)

/-- The comparator's order: `a` may precede `b` when
`releaseYear b ≤ releaseYear a` (year descending; ties free, resolved by
stability). -/
def yearDescOrder (a b : MovieResult) : Prop := releaseYear b ≤ releaseYear a

instance : DecidableRel yearDescOrder := fun _ _ => Nat.decLe _ _

instance : IsTotal MovieResult yearDescOrder :=
  ⟨fun a b => (Nat.le_total (releaseYear b) (releaseYear a)).imp id id⟩

instance : IsTrans MovieResult yearDescOrder :=
  ⟨fun _ _ _ h h' => Nat.le_trans h' h⟩

/-- The stable year-descending sort of `searchForMovies`
(movieStore.ts lines 148-152). -/
def sortByYearDesc (results : List MovieResult) : List MovieResult :=
  results.insertionSort yearDescOrder

/-! ## Multi-page aggregation (src/utils/sharing.ts, getPopularMovies) -/

/-- One upstream page response: `response.data` of a TMDB list endpoint. -/
structure PageResponse where
  results : List MovieResult
  page : Nat
  total_pages : Nat
  total_results : Nat
deriving Repr, DecidableEq

/-- The `const pagesNeeded = Math.ceil(resultsPerPage / 20);`. -/
def pagesNeeded (resultsPerPage : Nat) : Nat := (resultsPerPage + 19) / 20

/-- The upstream pages requested by the `for (let i = 0; i < pagesNeeded; i++)`
loop: `page + i` for each `i`. -/
def popularRequestPages (page resultsPerPage : Nat) : List Nat :=
  (List.range (pagesNeeded resultsPerPage)).map (fun i => page + i)

/-- The `getPopularMovies` (sharing.ts lines 209-248) with the upstream
endpoint abstracted as `upstream : Nat → PageResponse` (page number to
response).  `Promise.all` preserves request order, the `forEach` appends
each page's results in that order, `slice(0, resultsPerPage)` truncates,
and the totals are read from `responses[0]` (for `resultsPerPage = 0` the
source would throw on `responses[0]`; the embedding returns 0 there, and
every theorem about totals assumes `0 < resultsPerPage`). -/
def getPopularMovies (upstream : Nat → PageResponse) (page resultsPerPage : Nat) :
    PageResponse :=
  let responses := (popularRequestPages page resultsPerPage).map upstream
  let allResults := responses.foldl (fun acc r => acc ++ r.results) []
  let trimmedResults := allResults.take resultsPerPage
  { results := trimmedResults
    page := page
    total_pages := ((responses.head?).map (·.total_pages)).getD 0
    total_results := ((responses.head?).map (·.total_results)).getD 0 }

/-! ## The movie store (src/store/movieStore.ts) -/

/-- The `searchParams` of the movie store. -/
structure SearchParams where
  query : String
  resultsPerPage : Nat
  includeAdult : Bool
deriving Repr, DecidableEq

/-- The movie store's cache: `movieCache: Record<string, MovieResult[]>`.
Note the entries carry no timestamp. -/
def MovieCache : Type := String → Option (List MovieResult)

/-- The cache check shared by `fetchMovies`, `fetchTrending` and
`fetchMoviesByGenre`: `const cached = get().movieCache[cacheKey]; if
(cached && cached.length > 0) { …use cached… }`.  An absent key or an
empty cached list falls through to a fresh fetch. -/
def movieCacheGet (cache : MovieCache) (key : String) : Option (List MovieResult) :=
  match cache key with
  | some l => if 0 < l.length then some l else none
  | none => none

/-- The `movieCache: { ...state.movieCache, [cacheKey]: items }`. -/
def movieCachePut (cache : MovieCache) (key : String) (items : List MovieResult) :
    MovieCache :=
  fun k => if k = key then some items else cache k

/-- The movie store's cache consults no clock: its lookup at any wall
time `now` is the timeless lookup.  (The TV store's lookup, by contrast,
takes `now` and compares it with the entry's timestamp.) -/
def movieCacheGetAt (cache : MovieCache) (key : String) (_now : Nat) :
    Option (List MovieResult) :=
  movieCacheGet cache key

/-- The `timeWindow: 'day' | 'week'` of `fetchTrending`. -/
inductive TimeWindow where
  | day
  | week
deriving Repr, DecidableEq

/-- The string interpolated into the trending cache key. -/
def timeWindowStr : TimeWindow → String
  | .day => "day"
  | .week => "week"

/-- The `sortBy: 'popularity' | 'rating' | 'release_date'` of
`fetchMoviesByGenre`. -/
inductive GenreSortBy where
  | popularity
  | rating
  | release_date
deriving Repr, DecidableEq

/-- The string interpolated into the genre cache key and the discover
sort parameter. -/
def genreSortByStr : GenreSortBy → String
  | .popularity => "popularity"
  | .rating => "rating"
  | .release_date => "release_date"

/-- The `` const cacheKey = `movies-${page}-${resultsPerPage}` `` (fetchMovies). -/
def moviesCacheKey (page resultsPerPage : Nat) : String :=
  "movies-" ++ toString page ++ "-" ++ toString resultsPerPage

/-- The `` const cacheKey = `trending-${timeWindow}` `` (fetchTrending). -/
def trendingCacheKey (timeWindow : TimeWindow) : String :=
  "trending-" ++ timeWindowStr timeWindow

/-- The `` const cacheKey = `genre_${genreId}_${page}_${sortBy}_${isDescending}` ``
(fetchMoviesByGenre). -/
def genreCacheKey (genreId page : Nat) (sortBy : GenreSortBy) (isDescending : Bool) :
    String :=
  "genre_" ++ toString genreId ++ "_" ++ toString page ++ "_" ++ genreSortByStr sortBy
    ++ "_" ++ (if isDescending then "true" else "false")

/-- The client-side genre filter applied by `fetchMovies`/`fetchTrending`
to a fetched page: `get().selectedGenreId ? data.results.filter(m =>
m.genre_ids.includes(get().selectedGenreId!)) : data.results`. -/
def filterBySelectedGenre (selectedGenreId : Option Nat) (results : List MovieResult) :
    List MovieResult :=
  match selectedGenreId with
  | some g => results.filter (fun m => m.genre_ids.contains g)
  | none => results

/-- The `MovieState` of the movie store (the fields the claims are about). -/
structure MovieState where
  movies : List MovieResult
  loading : Bool
  error : Option String
  currentPage : Nat
  totalPages : Nat
  searchQuery : String
  selectedGenreId : Option Nat
  trending : List MovieResult
  movieCache : MovieCache
  searchParams : SearchParams

/-- The upstream requests a movie-store operation can issue. -/
inductive MovieRequest where
  | popular (page resultsPerPage : Nat)
  | search (query : String) (page resultsPerPage : Nat) (includeAdult : Bool)
  | trending (timeWindow : TimeWindow)
  | discover (genreId page : Nat) (sortBy : String)
deriving Repr, DecidableEq

/-- The `data.page || 1` / `data.total_pages || 1`: `0` is falsy in JS. -/
def orOne (n : Nat) : Nat := if n = 0 then 1 else n

/-- The `fetchMovies` (movieStore.ts lines 72-121) as a state transformer.
`outcome` is the settled result of `getPopularMovies(page, resultsPerPage)`
(an invalid response, `!data || !data.results`, is an `.error`); the
returned list holds the upstream request, empty on a cache hit. -/
def fetchMovies (st : MovieState) (page resultsPerPage : Nat)
    (outcome : Except String PageResponse) : MovieState × List MovieRequest :=
  let cacheKey := moviesCacheKey page resultsPerPage
  match movieCacheGet st.movieCache cacheKey with
  | some cached =>
    ({ st with movies := cached, currentPage := page, loading := false, searchQuery := "" },
      [])
  | none =>
    let st1 := { st with loading := true, error := none }
    match outcome with
    | .error msg =>
      ({ st1 with error := some msg, loading := false },
        [.popular page resultsPerPage])
    | .ok data =>
      let filtered := filterBySelectedGenre st1.selectedGenreId data.results
      ({ st1 with
          movies := filtered
          currentPage := orOne data.page
          totalPages := orOne data.total_pages
          loading := false
          error := none
          searchQuery := ""
          movieCache := movieCachePut st1.movieCache cacheKey filtered },
        [.popular page resultsPerPage])

/-- The `searchForMovies` (movieStore.ts lines 123-169): no empty-query
check; sets `searchQuery`/`searchParams` before the request, sorts the
results by year descending on success. -/
def searchForMovies (st : MovieState) (query : String) (page resultsPerPage : Nat)
    (outcome : Except String PageResponse) : MovieState × List MovieRequest :=
  let st1 := { st with
    loading := true
    error := none
    searchQuery := query
    searchParams := { st.searchParams with query := query, resultsPerPage := resultsPerPage } }
  let req := MovieRequest.search query page resultsPerPage st.searchParams.includeAdult
  match outcome with
  | .error msg => ({ st1 with error := some msg, loading := false }, [req])
  | .ok data =>
    let sortedResults := sortByYearDesc data.results
    ({ st1 with
        movies := sortedResults
        currentPage := orOne data.page
        totalPages := orOne data.total_pages
        loading := false
        error := none },
      [req])

/-- The `fetchTrending` (movieStore.ts lines 171-212). -/
def fetchTrending (st : MovieState) (timeWindow : TimeWindow)
    (outcome : Except String PageResponse) : MovieState × List MovieRequest :=
  let cacheKey := trendingCacheKey timeWindow
  match movieCacheGet st.movieCache cacheKey with
  | some cached => ({ st with trending := cached, loading := false }, [])
  | none =>
    let st1 := { st with loading := true, error := none }
    match outcome with
    | .error msg => ({ st1 with error := some msg, loading := false }, [.trending timeWindow])
    | .ok data =>
      let filtered := filterBySelectedGenre st1.selectedGenreId data.results
      ({ st1 with
          trending := filtered
          loading := false
          error := none
          movieCache := movieCachePut st1.movieCache cacheKey filtered },
        [.trending timeWindow])

/-- The `fetchMoviesByGenre` (movieStore.ts lines 231-292). -/
def fetchMoviesByGenre (st : MovieState) (genreId page : Nat) (sortBy : GenreSortBy)
    (isDescending : Bool) (outcome : Except String PageResponse) :
    MovieState × List MovieRequest :=
  let cacheKey := genreCacheKey genreId page sortBy isDescending
  let req := MovieRequest.discover genreId page
    (genreSortByStr sortBy ++ "." ++ (if isDescending then "desc" else "asc"))
  match movieCacheGet st.movieCache cacheKey with
  | some cached =>
    ({ st with
        movies := cached
        currentPage := page
        loading := false
        selectedGenreId := some genreId },
      [])
  | none =>
    let st1 := { st with loading := true, error := none, selectedGenreId := some genreId }
    match outcome with
    | .error msg => ({ st1 with error := some msg, loading := false }, [req])
    | .ok data =>
      ({ st1 with
          movies := data.results
          currentPage := orOne data.page
          totalPages := orOne data.total_pages
          loading := false
          error := none
          searchQuery := ""
          movieCache := movieCachePut st1.movieCache cacheKey data.results },
        [req])

/-! ## The TV series store (src/unnamed/part_012) -/

/-- The `const CACHE_EXPIRATION = 30 * 60 * 1000;` (part_012 line 53). -/
def CACHE_EXPIRATION : Nat := 30 * 60 * 1000

/-- One entry of `seriesCache: Record<string, { data: TVSeries[], timestamp: number }>`. -/
structure SeriesCacheEntry where
  data : List TVSeries
  timestamp : Nat
deriving Repr, DecidableEq

/-- The TV store's cache as a map. -/
def SeriesCache : Type := String → Option SeriesCacheEntry

/-- The cache check shared by `fetchSeries` and `searchForSeries`:
`if (cachedData && Date.now() - cachedData.timestamp < CACHE_EXPIRATION)`.
(`Nat` subtraction truncates at 0, matching the JS comparison for any
`now`: a negative JS difference is `< CACHE_EXPIRATION` too.) -/
def seriesCacheGet (cache : SeriesCache) (key : String) (now : Nat) :
    Option (List TVSeries) :=
  match cache key with
  | some e => if now - e.timestamp < CACHE_EXPIRATION then some e.data else none
  | none => none

/-- The `seriesCache: { ...get().seriesCache, [cacheKey]: { data, timestamp: Date.now() } }`. -/
def seriesCachePut (cache : SeriesCache) (key : String) (items : List TVSeries)
    (now : Nat) : SeriesCache :=
  fun k => if k = key then some ⟨items, now⟩ else cache k

/-- The `currentCategory: 'popular' | 'top_rated' | 'on_air'`. -/
inductive TVCategory where
  | popular
  | top_rated
  | on_air
deriving Repr, DecidableEq

/-- The string interpolated into the category cache key. -/
def tvCategoryStr : TVCategory → String
  | .popular => "popular"
  | .top_rated => "top_rated"
  | .on_air => "on_air"

/-- The `` const cacheKey = `${category}_${page}` `` (fetchSeries). -/
def tvCategoryKey (category : TVCategory) (page : Nat) : String :=
  tvCategoryStr category ++ "_" ++ toString page

/-- The `` const cacheKey = `search_${query}_${page}` `` (searchForSeries). -/
def tvSearchKey (query : String) (page : Nat) : String :=
  "search_" ++ query ++ "_" ++ toString page

/-- The `TVSeriesState` of the TV store (the fields the claims are about). -/
structure TVState where
  series : List TVSeries
  loading : Bool
  error : Option String
  currentPage : Nat
  totalPages : Nat
  searchQuery : String
  currentCategory : TVCategory
  seriesCache : SeriesCache

/-- One upstream TV page response. -/
structure TVPageResponse where
  results : List TVSeries
  page : Nat
  total_pages : Nat
deriving Repr, DecidableEq

/-- The upstream requests a TV-store operation can issue. -/
inductive TVRequest where
  | category (category : TVCategory) (page : Nat)
  | search (query : String) (page : Nat)
deriving Repr, DecidableEq

/-- The `fetchSeries` (part_012 lines 72-135).  The initial
`set({loading: true, error: null, currentCategory: category})` happens
before the cache check; `now` is `Date.now()` during the run. -/
def fetchSeries (st : TVState) (category : TVCategory) (page : Nat) (now : Nat)
    (outcome : Except String TVPageResponse) : TVState × List TVRequest :=
  let st1 := { st with loading := true, error := none, currentCategory := category }
  let cacheKey := tvCategoryKey category page
  match seriesCacheGet st1.seriesCache cacheKey now with
  | some data =>
    ({ st1 with
        series := data
        currentPage := page
        totalPages := (data.length + 19) / 20
        loading := false
        searchQuery := "" },
      [])
  | none =>
    match outcome with
    | .error msg =>
      ({ st1 with error := some msg, loading := false }, [.category category page])
    | .ok data =>
      ({ st1 with
          series := data.results
          currentPage := orOne data.page
          totalPages := orOne data.total_pages
          loading := false
          searchQuery := ""
          seriesCache := seriesCachePut st1.seriesCache cacheKey data.results now },
        [.category category page])

/-- The `!query.trim()`: the trimmed query is the empty string exactly when
every character of the query is whitespace. -/
def isBlank (query : String) : Bool := query.data.all (fun c => c.isWhitespace)

/-- The `searchForSeries` (part_012 lines 140-194): an empty/whitespace-only
query (`!query.trim()`) delegates to `fetchSeries('popular', 1)`. -/
def searchForSeries (st : TVState) (query : String) (page : Nat) (now : Nat)
    (outcome : Except String TVPageResponse) : TVState × List TVRequest :=
  if isBlank query then
    fetchSeries st .popular 1 now outcome
  else
    let st1 := { st with loading := true, error := none, searchQuery := query }
    let cacheKey := tvSearchKey query page
    match seriesCacheGet st1.seriesCache cacheKey now with
    | some data =>
      ({ st1 with
          series := data
          currentPage := page
          totalPages := (data.length + 19) / 20
          loading := false },
        [])
    | none =>
      match outcome with
      | .error msg =>
        ({ st1 with error := some msg, loading := false }, [.search query page])
      | .ok data =>
        ({ st1 with
            series := data.results
            currentPage := orOne data.page
            totalPages := orOne data.total_pages
            loading := false
            seriesCache := seriesCachePut st1.seriesCache cacheKey data.results now },
          [.search query page])

/-! ## Initial store states (movieStore.ts lines 47-61, part_012 lines 60-67) -/

/-- The movie store's initial state. -/
def initialMovieState : MovieState where
  movies := []
  loading := false
  error := none
  currentPage := 1
  totalPages := 1
  searchQuery := ""
  selectedGenreId := none
  trending := []
  movieCache := fun _ => none
  searchParams := { query := "", resultsPerPage := 40, includeAdult := false }

/-- The TV store's initial state. -/
def initialTVState : TVState where
  series := []
  loading := false
  error := none
  currentPage := 1
  totalPages := 1
  searchQuery := ""
  currentCategory := .popular
  seriesCache := fun _ => none

/-! ## Concrete sample data for witnesses and counterexamples -/

/-- An official Teaser hosted on YouTube. -/
def officialTeaser : VideoResult :=
  { id := "v1", name := "Official Teaser", key := "kt", site := "YouTube"
    videoType := "Teaser", official := true }

/-- An unofficial Trailer hosted on YouTube. -/
def unofficialTrailer : VideoResult :=
  { id := "v2", name := "Fan Trailer", key := "kf", site := "YouTube"
    videoType := "Trailer", official := false }

/-- Sample movies with release years 2010, 2023 and 1999. -/
def movie2010 : MovieResult :=
  { id := 1, title := "Ten", genre_ids := [12], release_date := some "2010-05-01" }

/-- See `movie2010`. -/
def movie2023 : MovieResult :=
  { id := 2, title := "TwentyThree", genre_ids := [28], release_date := some "2023-07-15" }

/-- See `movie2010`. -/
def movie1999 : MovieResult :=
  { id := 3, title := "NinetyNine", genre_ids := [35], release_date := some "1999-03-31" }

/-- A sample TV series. -/
def sampleSeries : TVSeries := { id := 7, name := "Show" }

/-- A one-page upstream movie response holding the three sample movies in
upstream order [2010, 2023, 1999]. -/
def samplePage : PageResponse :=
  { results := [movie2010, movie2023, movie1999], page := 1, total_pages := 5
    total_results := 100 }

/-- A one-page upstream TV response. -/
def sampleTVPage : TVPageResponse :=
  { results := [sampleSeries], page := 1, total_pages := 3 }

/-- An upstream popular-movies endpoint on which every page returns 20
(distinct) items: page `p` returns movies with ids `100*p .. 100*p+19`. -/
def uniformUpstream : Nat → PageResponse := fun p =>
  { results := (List.range 20).map (fun i =>
      { id := 100 * p + i, title := "M", genre_ids := [], release_date := none })
    page := p
    total_pages := 500
    total_results := 10000 }

/-! # Theorems -/

/-! ## Helper lemmas -/

/-- The `contains` agrees with list membership. -/
theorem contains_iff_mem {l : List Nat} {x : Nat} : l.contains x = true ↔ x ∈ l :=
  List.elem_iff

/-- Toggling an absent element twice restores the list exactly. -/
theorem toggle_twice_of_not_mem {F : List Nat} {x : Nat} (h : x ∉ F) :
    addToFavorites (addToFavorites F x) x = F := by
  have hc : F.contains x = false := by
    cases hce : F.contains x
    · rfl
    · exact absurd (contains_iff_mem.mp hce) h
  have h1 : addToFavorites F x = F ++ [x] := by
    unfold addToFavorites
    rw [hc]
    simp
  have hc2 : (F ++ [x]).contains x = true := contains_iff_mem.mpr (by simp)
  have hfilter : (F ++ [x]).filter (fun movieId => movieId != x) = F := by
    rw [List.filter_append]
    have hF : F.filter (fun movieId => movieId != x) = F :=
      List.filter_eq_self.mpr (fun a ha => bne_iff_ne.mpr (fun hax => h (hax ▸ ha)))
    have hx : [x].filter (fun movieId => movieId != x) = [] := by
      simp
    rw [hF, hx, List.append_nil]
  rw [h1]
  unfold addToFavorites
  rw [hc2]
  simpa using hfilter

/-- Toggling twice always preserves membership (though not necessarily
order: a present element is removed and re-appended at the end). -/
theorem toggle_twice_mem (F : List Nat) (x y : Nat) :
    y ∈ addToFavorites (addToFavorites F x) x ↔ y ∈ F := by
  by_cases hx : x ∈ F
  · have hc : F.contains x = true := contains_iff_mem.mpr hx
    have h1 : addToFavorites F x = F.filter (fun movieId => movieId != x) := by
      unfold addToFavorites
      rw [hc]
      simp
    have hc2 : (F.filter (fun movieId => movieId != x)).contains x = false := by
      cases hce : (F.filter (fun movieId => movieId != x)).contains x
      · rfl
      · have := contains_iff_mem.mp hce
        rw [List.mem_filter] at this
        exact absurd this.2 (by simp)
    rw [h1]
    unfold addToFavorites
    rw [hc2]
    simp only [Bool.false_eq_true, if_neg, ite_false, List.mem_append, List.mem_filter,
      List.mem_singleton, bne_iff_ne]
    constructor
    · rintro (⟨hyF, _⟩ | rfl)
      · exact hyF
      · exact hx
    · intro hyF
      by_cases hyx : y = x
      · exact Or.inr hyx
      · exact Or.inl ⟨hyF, hyx⟩
  · rw [toggle_twice_of_not_mem hx]

/-- The `addToWatchlist` has the same body as `addToFavorites`. -/
theorem addToWatchlist_eq_addToFavorites (l : List Nat) (x : Nat) :
    addToWatchlist l x = addToFavorites l x := rfl

/-! ### Helper lemmas for getBestTrailer -/

/-- If no video is on YouTube, the type loop finds nothing. -/
theorem bestOfTypes_eq_none {videos : List VideoResult}
    (h : ∀ v ∈ videos, v.site ≠ "YouTube") :
    ∀ ts : List String, bestOfTypes videos ts = none := by
  intro ts
  induction ts with
  | nil => rfl
  | cons t rest ih =>
    have h1 : videos.find?
        (fun v => v.videoType == t && v.site == "YouTube" && v.official == true) = none := by
      rw [List.find?_eq_none]
      intro v hv
      simp only [Bool.and_eq_true, beq_iff_eq, not_and]
      intro hvt
      exact absurd hvt.2 (h v hv)
    have h2 : videos.find? (fun v => v.videoType == t && v.site == "YouTube") = none := by
      rw [List.find?_eq_none]
      intro v hv
      simp only [Bool.and_eq_true, beq_iff_eq, not_and]
      intro _
      exact h v hv
    unfold bestOfTypes
    rw [h1, h2, ih]

/-- A type with no YouTube video of that type is skipped by the loop. -/
theorem bestOfTypes_cons_of_none {videos : List VideoResult} {t : String}
    (h : ∀ v ∈ videos, v.site = "YouTube" → v.videoType ≠ t) (ts : List String) :
    bestOfTypes videos (t :: ts) = bestOfTypes videos ts := by
  have h1 : videos.find?
      (fun v => v.videoType == t && v.site == "YouTube" && v.official == true) = none := by
    rw [List.find?_eq_none]
    intro v hv
    simp only [Bool.and_eq_true, beq_iff_eq, not_and]
    intro hvt
    exact absurd hvt.1 (h v hv hvt.2)
  have h2 : videos.find? (fun v => v.videoType == t && v.site == "YouTube") = none := by
    rw [List.find?_eq_none]
    intro v hv
    simp only [Bool.and_eq_true, beq_iff_eq, not_and]
    intro hvt hsite
    exact absurd hvt (h v hv hsite)
  conv_lhs => rw [bestOfTypes]
  rw [h1, h2]

/-- A whole prefix of types with no YouTube videos is skipped. -/
theorem bestOfTypes_append_of_none {videos : List VideoResult} {pre : List String}
    (h : ∀ v ∈ videos, v.site = "YouTube" → v.videoType ∉ pre) (ts : List String) :
    bestOfTypes videos (pre ++ ts) = bestOfTypes videos ts := by
  induction pre with
  | nil => rfl
  | cons t rest ih =>
    rw [List.cons_append,
      bestOfTypes_cons_of_none (fun v hv hs ht => h v hv hs (ht ▸ List.mem_cons_self t rest)),
      ih (fun v hv hs ht => h v hv hs (List.mem_cons_of_mem t ht))]

/-- If a YouTube video of type `t` exists, the loop stops at `t` and
prefers an official one when available. -/
theorem bestOfTypes_cons_of_exists {videos : List VideoResult} {t : String}
    (h : ∃ v ∈ videos, v.videoType = t ∧ v.site = "YouTube") (ts : List String) :
    ∃ w, bestOfTypes videos (t :: ts) = some w ∧ w.videoType = t ∧ w.site = "YouTube" ∧
      ((∃ u ∈ videos, u.videoType = t ∧ u.site = "YouTube" ∧ u.official = true) →
        w.official = true) := by
  unfold bestOfTypes
  cases h1 : videos.find?
      (fun v => v.videoType == t && v.site == "YouTube" && v.official == true) with
  | some w =>
    have hw := List.find?_some h1
    simp only [Bool.and_eq_true, beq_iff_eq] at hw
    exact ⟨w, rfl, hw.1.1, hw.1.2, fun _ => hw.2⟩
  | none =>
    have hno : ¬∃ u ∈ videos, u.videoType = t ∧ u.site = "YouTube" ∧ u.official = true := by
      rintro ⟨u, hu, hut, hus, huo⟩
      rw [List.find?_eq_none] at h1
      exact h1 u hu (by simp [hut, hus, huo])
    cases h2 : videos.find? (fun v => v.videoType == t && v.site == "YouTube") with
    | some w =>
      have hw := List.find?_some h2
      simp only [Bool.and_eq_true, beq_iff_eq] at hw
      exact ⟨w, rfl, hw.1, hw.2, fun hex => absurd hex hno⟩
    | none =>
      obtain ⟨v, hv, hvt, hvs⟩ := h
      rw [List.find?_eq_none] at h2
      exact absurd (by simp [hvt, hvs] : (fun v => v.videoType == t && v.site == "YouTube") v = true)
        (h2 v hv)

/-! ## C6 -/

/-- C6 (confirmed): a token whose `sessionStart` is `T` passes the
session-timeout check at `T+29:59`, is rejected with 401 at `T+30:01`,
and in general passes exactly when `now - T ≤ 30` minutes (the source
rejects only strictly beyond the bound). -/
theorem C6_session_token_lifetime (T : Int) :
    sessionTimeout T (T + (29 * 60 + 59) * 1000) = .pass ∧
    sessionTimeout T (T + (30 * 60 + 1) * 1000) = .expired401 ∧
    (∀ now : Int, sessionTimeout T now = .pass ↔ now - T ≤ 30 * 60 * 1000) := by
  refine ⟨?_, ?_, fun now => ?_⟩
  · unfold sessionTimeout sessionTimeoutMs
    rw [if_neg (by omega)]
  · unfold sessionTimeout sessionTimeoutMs
    rw [if_pos (by omega)]
  · unfold sessionTimeout sessionTimeoutMs
    split
    · next h =>
      constructor
      · intro hcontra
        exact absurd hcontra (by simp)
      · intro hle
        omega
    · next h =>
      constructor
      · intro _
        omega
      · intro _
        rfl

/-! ## C7 -/

/-- C7 counterexample: the claim fails as stated.  In the authStore
toggle, double-toggling an element that is present changes the order
(`[42, 7]` becomes `[7, 42]`); in the variant at movieStore.ts lines
501-505, `addToFavorites` is a pure append, so a double call adds two
copies instead of restoring the list. -/
theorem C7_counterexample :
    addToFavorites (addToFavorites [42, 7] 42) 42 = [7, 42] ∧
    ([7, 42] : List Nat) ≠ [42, 7] ∧
    addToFavoritesAppend (addToFavoritesAppend [] "42") "42" = ["42", "42"] ∧
    (["42", "42"] : List String) ≠ [] := by
  refine ⟨by decide, by decide, rfl, by decide⟩

/-- C7 (corrected): `addToFavorites`/`addToWatchlist` of
`src/store/authStore.ts` toggle membership; a double call restores the
list exactly when the id was absent, and in general preserves membership
(a present id is removed and re-appended at the end).  The variant at
`src/store/movieStore.ts` lines 501-523 is a pure append: a double call
yields the original list with two copies of the id appended. -/
theorem C7_toggle_amended (F W : List Nat) (x : Nat) :
    (x ∉ F → addToFavorites (addToFavorites F x) x = F) ∧
    (∀ y, y ∈ addToFavorites (addToFavorites F x) x ↔ y ∈ F) ∧
    (x ∉ W → addToWatchlist (addToWatchlist W x) x = W) ∧
    (∀ y, y ∈ addToWatchlist (addToWatchlist W x) x ↔ y ∈ W) ∧
    (∀ (G : List String) (s : String),
      addToFavoritesAppend (addToFavoritesAppend G s) s = G ++ [s, s] ∧
      addToWatchlistAppend (addToWatchlistAppend G s) s = G ++ [s, s]) := by
  refine ⟨fun h => toggle_twice_of_not_mem h, toggle_twice_mem F x,
    ?_, ?_, fun G s => ⟨by simp [addToFavoritesAppend], by simp [addToWatchlistAppend]⟩⟩
  · intro h
    rw [addToWatchlist_eq_addToFavorites, addToWatchlist_eq_addToFavorites]
    exact toggle_twice_of_not_mem h
  · intro y
    rw [addToWatchlist_eq_addToFavorites, addToWatchlist_eq_addToFavorites]
    exact toggle_twice_mem W x y

/-- Witness for `C7_toggle_amended` at `F = W = [7]`, `x = 42`. -/
theorem C7_toggle_amended_witness :
    (42 ∉ ([7] : List Nat)) ∧ addToFavorites (addToFavorites [7] 42) 42 = [7] :=
  ⟨by decide, (C7_toggle_amended [7] [7] 42).1 (by decide)⟩

/-! ## C8 -/

/-- C8 counterexample: for a registered email the response carries
`resetToken` (and `resetUrl`), for an unknown email it does not, so the
two responses are not identical in shape — the claim as stated fails. -/
theorem C8_counterexample :
    (requestPasswordReset [("real@x.com", "u1")] id "real@x.com").resetToken = some "u1" ∧
    (requestPasswordReset [("real@x.com", "u1")] id "nonexistent@x.com").resetToken = none ∧
    requestPasswordReset [("real@x.com", "u1")] id "real@x.com" ≠
      requestPasswordReset [("real@x.com", "u1")] id "nonexistent@x.com" := by
  refine ⟨rfl, rfl, ?_⟩
  intro h
  have := congrArg ResetResponse.resetToken h
  simp [requestPasswordReset, findUserByEmail] at this

/-- C8 (corrected): for any two non-empty request emails the
responses have the same HTTP status (200) and the same generic message,
but the response shape does reveal registration: `resetToken` is present
exactly when the email is registered (the source comments this as a
development-only leak to be removed in production). -/
theorem C8_anti_enumeration_amended (db : List (String × String)) (sign : String → String)
    (e1 e2 : String) (h1 : e1 ≠ "") (h2 : e2 ≠ "") :
    (requestPasswordReset db sign e1).status = 200 ∧
    (requestPasswordReset db sign e2).status = 200 ∧
    (requestPasswordReset db sign e1).message = (requestPasswordReset db sign e2).message ∧
    ((requestPasswordReset db sign e1).resetToken.isSome ↔
      (findUserByEmail db e1).isSome) := by
  unfold requestPasswordReset
  rw [if_neg h1, if_neg h2]
  cases hf1 : findUserByEmail db e1 <;> cases hf2 : findUserByEmail db e2 <;> simp

/-- Witness for `C8_anti_enumeration_amended` on a one-user table. -/
theorem C8_anti_enumeration_amended_witness :
    ("real@x.com" : String) ≠ "" ∧ ("nonexistent@x.com" : String) ≠ "" ∧
    ((requestPasswordReset [("real@x.com", "u1")] id "real@x.com").status = 200 ∧
     (requestPasswordReset [("real@x.com", "u1")] id "nonexistent@x.com").status = 200 ∧
     (requestPasswordReset [("real@x.com", "u1")] id "real@x.com").message =
       (requestPasswordReset [("real@x.com", "u1")] id "nonexistent@x.com").message ∧
     ((requestPasswordReset [("real@x.com", "u1")] id "real@x.com").resetToken.isSome ↔
       (findUserByEmail [("real@x.com", "u1")] "real@x.com").isSome)) :=
  ⟨by decide, by decide,
    C8_anti_enumeration_amended [("real@x.com", "u1")] id "real@x.com" "nonexistent@x.com"
      (by decide) (by decide)⟩

/-! ## C2 -/

/-- C2 (confirmed): `getBestTrailer` returns `null` exactly when no
video is hosted on YouTube; if some YouTube video's type is the first
type `t` of the precedence list `Trailer, Teaser, Clip, Behind the
Scenes` to be available, the result is a YouTube video of type `t`,
official whenever an official YouTube video of type `t` exists; if no
YouTube video has a preferred type, the result is the first YouTube video
of any type.  In particular an unofficial Trailer beats an official
Teaser. -/
theorem C2_best_trailer (videos : List VideoResult) :
    (getBestTrailer videos = none ↔ ∀ v ∈ videos, v.site ≠ "YouTube") ∧
    (∀ (pre : List String) (t : String) (post : List String),
      trailerTypes = pre ++ t :: post →
      (∀ v ∈ videos, v.site = "YouTube" → v.videoType ∉ pre) →
      (∃ v ∈ videos, v.videoType = t ∧ v.site = "YouTube") →
      ∃ w, getBestTrailer videos = some w ∧ w.videoType = t ∧ w.site = "YouTube" ∧
        ((∃ u ∈ videos, u.videoType = t ∧ u.site = "YouTube" ∧ u.official = true) →
          w.official = true)) ∧
    ((∀ v ∈ videos, v.site = "YouTube" → v.videoType ∉ trailerTypes) →
      getBestTrailer videos = videos.find? (fun v => v.site == "YouTube")) ∧
    getBestTrailer [officialTeaser, unofficialTrailer] = some unofficialTrailer := by
  refine ⟨⟨?_, ?_⟩, ?_, ?_, by decide⟩
  · intro hnone v hv hsite
    unfold getBestTrailer at hnone
    split at hnone
    · next hemp =>
      rw [List.isEmpty_iff] at hemp
      subst hemp
      simp at hv
    · next =>
      split at hnone
      · next => exact absurd hnone (by simp)
      · next =>
        rw [List.find?_eq_none] at hnone
        exact hnone v hv (by simp [hsite])
  · intro hall
    unfold getBestTrailer
    split
    · rfl
    · next =>
      rw [bestOfTypes_eq_none hall, List.find?_eq_none.mpr]
      intro v hv
      simp only [beq_iff_eq]
      exact hall v hv
  · intro pre t post hsplit hpre hex
    have hne : videos.isEmpty = false := by
      obtain ⟨v, hv, _⟩ := hex
      cases hemp : videos.isEmpty
      · rfl
      · rw [List.isEmpty_iff] at hemp
        subst hemp
        simp at hv
    obtain ⟨w, hw, hwt, hws, hwo⟩ := bestOfTypes_cons_of_exists hex post
    refine ⟨w, ?_, hwt, hws, hwo⟩
    unfold getBestTrailer
    rw [hne, hsplit, bestOfTypes_append_of_none hpre, hw]
    simp
  · intro hall
    unfold getBestTrailer
    split
    · next hemp =>
      rw [List.isEmpty_iff] at hemp
      subst hemp
      rfl
    · next =>
      have : trailerTypes = trailerTypes ++ [] := by simp
      rw [this, bestOfTypes_append_of_none hall]
      rfl

/-- Witness for `C2_best_trailer`: on `[officialTeaser, unofficialTrailer]`,
type precedence picks a Trailer. -/
theorem C2_best_trailer_witness :
    ∃ w, getBestTrailer [officialTeaser, unofficialTrailer] = some w ∧
      w.videoType = "Trailer" ∧ w.site = "YouTube" ∧
      ((∃ u ∈ [officialTeaser, unofficialTrailer],
          u.videoType = "Trailer" ∧ u.site = "YouTube" ∧ u.official = true) →
        w.official = true) :=
  (C2_best_trailer [officialTeaser, unofficialTrailer]).2.1 []
    "Trailer" ["Teaser", "Clip", "Behind the Scenes"] rfl (by decide) (by decide)

/-! ## C5 -/

/-- Stability of the search sort: elements of any fixed extracted year
keep their upstream relative order. -/
theorem sortByYearDesc_stable (l : List MovieResult) (k : Nat) :
    (sortByYearDesc l).filter (fun m => releaseYear m == k) =
      l.filter (fun m => releaseYear m == k) := by
  set p : MovieResult → Bool := fun m => releaseYear m == k with hp
  have hpair : (l.filter p).Pairwise yearDescOrder := by
    apply List.pairwise_of_forall_mem_list
    intro a ha b hb
    rw [List.mem_filter] at ha hb
    have ha2 := beq_iff_eq.mp ha.2
    have hb2 := beq_iff_eq.mp hb.2
    unfold yearDescOrder
    omega
  have hsub : (l.filter p).Sublist (sortByYearDesc l) :=
    List.sublist_insertionSort hpair (List.filter_sublist l)
  have heq : (l.filter p).filter p = l.filter p :=
    List.filter_eq_self.mpr (fun a ha => (List.mem_filter.mp ha).2)
  have hsub2 : (l.filter p).Sublist ((sortByYearDesc l).filter p) := by
    have := List.Sublist.filter p hsub
    rwa [heq] at this
  have hlen : ((sortByYearDesc l).filter p).length = (l.filter p).length := by
    rw [← List.countP_eq_length_filter, ← List.countP_eq_length_filter]
    exact (List.perm_insertionSort yearDescOrder l).countP_eq p
  exact (hsub2.eq_of_length hlen.symm).symm

/-- C5 (confirmed): the list `searchForMovies` makes visible is a
permutation of the fetched results, sorted by extracted release year
descending, with equal-year items keeping their upstream relative order;
on fetched years `[2010, 2023, 1999]` the visible years are
`[2023, 2010, 1999]`. -/
theorem C5_search_sort (l : List MovieResult) :
    (sortByYearDesc l).Perm l ∧
    (sortByYearDesc l).Pairwise (fun a b => releaseYear b ≤ releaseYear a) ∧
    (∀ k : Nat, (sortByYearDesc l).filter (fun m => releaseYear m == k) =
      l.filter (fun m => releaseYear m == k)) ∧
    (sortByYearDesc [movie2010, movie2023, movie1999]).map releaseYear =
      [2023, 2010, 1999] ∧
    (sortByYearDesc [movie2023, movie2010, movie1999]).map releaseYear =
      [2023, 2010, 1999] ∧
    (sortByYearDesc [movie1999, movie2023, movie2010]).map releaseYear =
      [2023, 2010, 1999] := by
  refine ⟨List.perm_insertionSort yearDescOrder l,
    List.sorted_insertionSort yearDescOrder l,
    sortByYearDesc_stable l, by decide, by decide, by decide⟩

/-! ## C4 -/

/-- Folding `acc ++ r.results` over responses concatenates the pages'
results in order. -/
theorem foldl_append_results (rs : List PageResponse) (init : List MovieResult) :
    rs.foldl (fun acc r => acc ++ r.results) init =
      init ++ (rs.map (·.results)).flatten := by
  induction rs generalizing init with
  | nil => simp
  | cons r rs ih => simp [ih, List.append_assoc]

/-- C4 (confirmed, for a positive requested count): `getPopularMovies`
issues exactly `⌈resultsPerPage / 20⌉` page requests, for the consecutive
pages `page, page+1, …`; its result list is the page-ordered
concatenation of the responses truncated to at most `resultsPerPage`
items; `total_pages`/`total_results` come from the first page's response;
and when every upstream page holds 20 items, requesting 45 issues 3
fetches and returns exactly 45 of the 60 fetched items. -/
theorem C4_multi_page_aggregation (upstream : Nat → PageResponse)
    (page resultsPerPage : Nat) (hpos : 0 < resultsPerPage) :
    (popularRequestPages page resultsPerPage).length = (resultsPerPage + 19) / 20 ∧
    popularRequestPages page resultsPerPage =
      List.range' page (pagesNeeded resultsPerPage) ∧
    (getPopularMovies upstream page resultsPerPage).results =
      (((popularRequestPages page resultsPerPage).map
        (fun p => (upstream p).results)).flatten).take resultsPerPage ∧
    (getPopularMovies upstream page resultsPerPage).total_pages =
      (upstream page).total_pages ∧
    (getPopularMovies upstream page resultsPerPage).total_results =
      (upstream page).total_results ∧
    (getPopularMovies upstream page resultsPerPage).results.length ≤ resultsPerPage ∧
    ((∀ p, (upstream p).results.length = 20) → resultsPerPage = 45 →
      (popularRequestPages page resultsPerPage).length = 3 ∧
      (((popularRequestPages page resultsPerPage).map
        (fun p => (upstream p).results)).flatten).length = 60 ∧
      (getPopularMovies upstream page resultsPerPage).results.length = 45) := by
  have hk : 0 < pagesNeeded resultsPerPage := by
    unfold pagesNeeded
    omega
  have hrange : popularRequestPages page resultsPerPage =
      List.range' page (pagesNeeded resultsPerPage) := by
    unfold popularRequestPages
    rw [List.range'_eq_map_range]
  have hlen : (popularRequestPages page resultsPerPage).length =
      (resultsPerPage + 19) / 20 := by
    unfold popularRequestPages pagesNeeded
    simp
  have hhead : (popularRequestPages page resultsPerPage).head? = some page := by
    rw [hrange]
    obtain ⟨m, hm⟩ : ∃ m, pagesNeeded resultsPerPage = m + 1 :=
      ⟨pagesNeeded resultsPerPage - 1, by omega⟩
    rw [hm]
    rfl
  have hresults : (getPopularMovies upstream page resultsPerPage).results =
      (((popularRequestPages page resultsPerPage).map
        (fun p => (upstream p).results)).flatten).take resultsPerPage := by
    unfold getPopularMovies
    simp only [foldl_append_results, List.nil_append, List.map_map]
    rfl
  have hjoinlen : (∀ p, (upstream p).results.length = 20) → resultsPerPage = 45 →
      (((popularRequestPages page resultsPerPage).map
        (fun p => (upstream p).results)).flatten).length = 60 := by
    intro hall h45
    rw [List.length_flatten, List.map_map]
    have hmap : (popularRequestPages page resultsPerPage).map
        (List.length ∘ fun p => (upstream p).results) =
        (popularRequestPages page resultsPerPage).map (fun _ => 20) :=
      List.map_congr_left (fun a _ => hall a)
    rw [hmap]
    have hconst : ((popularRequestPages page resultsPerPage).map (fun _ => (20 : Nat))) =
        List.replicate
          ((popularRequestPages page resultsPerPage).map (fun _ => (20 : Nat))).length 20 :=
      List.eq_replicate_of_mem (by simp)
    rw [hconst, List.sum_replicate, List.length_map, hlen, h45, smul_eq_mul]
  refine ⟨hlen, hrange, hresults, ?_, ?_, ?_, fun hall h45 => ⟨by rw [hlen, h45], hjoinlen hall h45, ?_⟩⟩
  · unfold getPopularMovies
    simp only [List.head?_map, hhead]
    rfl
  · unfold getPopularMovies
    simp only [List.head?_map, hhead]
    rfl
  · rw [hresults, List.length_take]
    omega
  · rw [hresults, List.length_take, hjoinlen hall h45, h45]
    decide

/-- Witness for `C4_multi_page_aggregation` on `uniformUpstream` at
`page = 1`, `resultsPerPage = 45`. -/
theorem C4_multi_page_aggregation_witness :
    (0 < 45 ∧ (popularRequestPages 1 45).length = 3 ∧
      (getPopularMovies uniformUpstream 1 45).results.length = 45) :=
  ⟨by decide,
    ((C4_multi_page_aggregation uniformUpstream 1 45 (by decide)).2.2.2.2.2.2
      (fun p => by simp [uniformUpstream]) rfl).1,
    ((C4_multi_page_aggregation uniformUpstream 1 45 (by decide)).2.2.2.2.2.2
      (fun p => by simp [uniformUpstream]) rfl).2.2⟩

/-! ## C1 -/

/-- C1 counterexample: the movie store's `movieCache` enforces no
expiry — an entry cached under `movies-1-40` is still returned at any
later wall time, 31 minutes included, where the claim demands absent —
and a `put` of an empty item list is not returned by the next get (the
`cached.length > 0` check), where the claim demands exactly the stored
list. -/
theorem C1_counterexample :
    movieCacheGetAt (movieCachePut (fun _ => none) (moviesCacheKey 1 40) [movie2010])
      (moviesCacheKey 1 40) (31 * 60 * 1000) = some [movie2010] ∧
    (some [movie2010] : Option (List MovieResult)) ≠ none ∧
    movieCacheGet (movieCachePut (fun _ => none) (moviesCacheKey 1 40) [])
      (moviesCacheKey 1 40) = none := by
  exact ⟨rfl, by simp, rfl⟩

/-- C1 (corrected): the 30-minute lookup-time expiry holds for the TV
store's `seriesCache` (fresh entries are returned exactly, entries of age
`≥ 30` minutes are ignored with no eviction side effect), but not for the
movie store: `movieCache` entries carry no timestamp, a non-empty entry
is returned at every later lookup regardless of age, and an empty stored
list is never returned. -/
theorem C1_cache_expiry_amended :
    (∀ (cache : SeriesCache) (key : String) (items : List TVSeries) (tPut now : Nat),
      (now - tPut < CACHE_EXPIRATION →
        seriesCacheGet (seriesCachePut cache key items tPut) key now = some items) ∧
      (now - tPut ≥ CACHE_EXPIRATION →
        seriesCacheGet (seriesCachePut cache key items tPut) key now = none)) ∧
    (∀ (cache : MovieCache) (key : String) (items : List MovieResult) (now : Nat),
      items ≠ [] →
      movieCacheGetAt (movieCachePut cache key items) key now = some items) ∧
    (∀ (cache : MovieCache) (key : String) (now : Nat),
      movieCacheGetAt (movieCachePut cache key []) key now = none) := by
  refine ⟨fun cache key items tPut now => ⟨fun hfresh => ?_, fun hexp => ?_⟩,
    fun cache key items now hne => ?_, fun cache key now => ?_⟩
  · unfold seriesCacheGet seriesCachePut
    rw [if_pos rfl]
    simp only
    rw [if_pos hfresh]
  · unfold seriesCacheGet seriesCachePut
    rw [if_pos rfl]
    simp only
    rw [if_neg (by omega)]
  · unfold movieCacheGetAt movieCacheGet movieCachePut
    rw [if_pos rfl]
    simp only
    rw [if_pos (by cases items with | nil => exact absurd rfl hne | cons a l => simp)]
  · unfold movieCacheGetAt movieCacheGet movieCachePut
    rw [if_pos rfl]
    rfl

/-- Witness for `C1_cache_expiry_amended`: a fresh TV entry is returned,
one aged exactly 30 minutes is absent, and a non-empty movie entry is
still returned 31 minutes after the put. -/
theorem C1_cache_expiry_amended_witness :
    ((0 : Nat) - 0 < CACHE_EXPIRATION ∧
      seriesCacheGet (seriesCachePut (fun _ => none) (tvCategoryKey .popular 1)
        [sampleSeries] 0) (tvCategoryKey .popular 1) 0 = some [sampleSeries]) ∧
    ((1800000 : Nat) - 0 ≥ CACHE_EXPIRATION ∧
      seriesCacheGet (seriesCachePut (fun _ => none) (tvCategoryKey .popular 1)
        [sampleSeries] 0) (tvCategoryKey .popular 1) 1800000 = none) ∧
    (([movie2010] : List MovieResult) ≠ [] ∧
      movieCacheGetAt (movieCachePut (fun _ => none) (moviesCacheKey 1 40) [movie2010])
        (moviesCacheKey 1 40) (31 * 60 * 1000) = some [movie2010]) :=
  ⟨⟨by decide,
      (C1_cache_expiry_amended.1 (fun _ => none) (tvCategoryKey .popular 1)
        [sampleSeries] 0 0).1 (by decide)⟩,
    ⟨by decide,
      (C1_cache_expiry_amended.1 (fun _ => none) (tvCategoryKey .popular 1)
        [sampleSeries] 0 1800000).2 (by decide)⟩,
    ⟨by decide,
      C1_cache_expiry_amended.2.1 (fun _ => none) (moviesCacheKey 1 40) [movie2010]
        (31 * 60 * 1000) (by decide)⟩⟩

/-! ## C3 -/

/-- The `fetchSeries` issues at most its own category request. -/
theorem fetchSeries_requests (st : TVState) (category : TVCategory) (page now : Nat)
    (outcome : Except String TVPageResponse) :
    (fetchSeries st category page now outcome).2 = [] ∨
    (fetchSeries st category page now outcome).2 = [.category category page] := by
  unfold fetchSeries
  dsimp only
  split
  · left
    rfl
  · right
    cases outcome <;> rfl

/-- C3 counterexample: the movie store's `searchForMovies` has no
empty-query check — on the empty query it still issues a search call, and
its resulting state differs from `fetchMovies`' (the search path sorts by
year, the category path keeps upstream order and caches). -/
theorem C3_counterexample :
    (searchForMovies initialMovieState "" 1 40 (.ok samplePage)).2 =
      [MovieRequest.search "" 1 40 false] ∧
    [MovieRequest.search "" 1 40 false] ≠ [] ∧
    (searchForMovies initialMovieState "" 1 40 (.ok samplePage)).1.movies ≠
      (fetchMovies initialMovieState 1 40 (.ok samplePage)).1.movies := by
  refine ⟨rfl, by simp, by decide⟩

/-- C3 (corrected): the TV store's `searchForSeries` on an
empty/whitespace-only query issues no search call and behaves exactly as
`fetchSeries('popular', 1)`; the movie store's `searchForMovies` performs
no such delegation (the SearchBar component, not the store, routes empty
queries to `fetchMovies`). -/
theorem C3_empty_query_delegation_amended (st : TVState) (query : String) (page now : Nat)
    (outcome : Except String TVPageResponse) (hblank : isBlank query = true) :
    searchForSeries st query page now outcome = fetchSeries st .popular 1 now outcome ∧
    (∀ (q : String) (p : Nat),
      TVRequest.search q p ∉ (searchForSeries st query page now outcome).2) := by
  have heq : searchForSeries st query page now outcome =
      fetchSeries st .popular 1 now outcome := by
    unfold searchForSeries
    rw [if_pos hblank]
  refine ⟨heq, fun q p => ?_⟩
  rw [heq]
  rcases fetchSeries_requests st .popular 1 now outcome with h | h <;> rw [h] <;> simp

/-- Witness for `C3_empty_query_delegation_amended` on a
whitespace-only query. -/
theorem C3_empty_query_delegation_amended_witness :
    isBlank "   " = true ∧
    searchForSeries initialTVState "   " 3 0 (.ok sampleTVPage) =
      fetchSeries initialTVState .popular 1 0 (.ok sampleTVPage) :=
  ⟨by decide,
    (C3_empty_query_delegation_amended initialTVState "   " 3 0 (.ok sampleTVPage)
      (by decide)).1⟩

/-! ## C10 -/

/-- C10 counterexample: a failing `fetchSeries('top_rated', …)` does
not only update `error`/`loading` — it also leaves `currentCategory`
changed to the requested category (set before the request was issued). -/
theorem C10_counterexample :
    (fetchSeries initialTVState .top_rated 1 0 (.error "boom")).1.currentCategory =
      .top_rated ∧
    initialTVState.currentCategory = .popular ∧
    TVCategory.top_rated ≠ .popular := by
  refine ⟨rfl, rfl, by decide⟩

/-- C10 (corrected): on a failing request every fetch operation of
both stores retains the previously displayed `movies`/`series`/`trending`
lists, `currentPage` and `totalPages`, sets the error message and clears
the loading flag — but the fields assigned before the request also keep
their new values: `searchQuery`/`searchParams` in `searchForMovies`,
`selectedGenreId` in `fetchMoviesByGenre`, `currentCategory` in
`fetchSeries`, and `searchQuery` in `searchForSeries`. -/
theorem C10_failure_atomicity_amended :
    (∀ (st : MovieState) (page rpp : Nat) (msg : String),
      movieCacheGet st.movieCache (moviesCacheKey page rpp) = none →
      ((fetchMovies st page rpp (.error msg)).1.movies = st.movies ∧
       (fetchMovies st page rpp (.error msg)).1.trending = st.trending ∧
       (fetchMovies st page rpp (.error msg)).1.currentPage = st.currentPage ∧
       (fetchMovies st page rpp (.error msg)).1.totalPages = st.totalPages ∧
       (fetchMovies st page rpp (.error msg)).1.searchQuery = st.searchQuery ∧
       (fetchMovies st page rpp (.error msg)).1.selectedGenreId = st.selectedGenreId ∧
       (fetchMovies st page rpp (.error msg)).1.error = some msg ∧
       (fetchMovies st page rpp (.error msg)).1.loading = false)) ∧
    (∀ (st : MovieState) (q : String) (page rpp : Nat) (msg : String),
      ((searchForMovies st q page rpp (.error msg)).1.movies = st.movies ∧
       (searchForMovies st q page rpp (.error msg)).1.trending = st.trending ∧
       (searchForMovies st q page rpp (.error msg)).1.currentPage = st.currentPage ∧
       (searchForMovies st q page rpp (.error msg)).1.totalPages = st.totalPages ∧
       (searchForMovies st q page rpp (.error msg)).1.error = some msg ∧
       (searchForMovies st q page rpp (.error msg)).1.loading = false ∧
       (searchForMovies st q page rpp (.error msg)).1.searchQuery = q)) ∧
    (∀ (st : MovieState) (tw : TimeWindow) (msg : String),
      movieCacheGet st.movieCache (trendingCacheKey tw) = none →
      ((fetchTrending st tw (.error msg)).1.movies = st.movies ∧
       (fetchTrending st tw (.error msg)).1.trending = st.trending ∧
       (fetchTrending st tw (.error msg)).1.currentPage = st.currentPage ∧
       (fetchTrending st tw (.error msg)).1.totalPages = st.totalPages ∧
       (fetchTrending st tw (.error msg)).1.searchQuery = st.searchQuery ∧
       (fetchTrending st tw (.error msg)).1.error = some msg ∧
       (fetchTrending st tw (.error msg)).1.loading = false)) ∧
    (∀ (st : MovieState) (g page : Nat) (sb : GenreSortBy) (d : Bool) (msg : String),
      movieCacheGet st.movieCache (genreCacheKey g page sb d) = none →
      ((fetchMoviesByGenre st g page sb d (.error msg)).1.movies = st.movies ∧
       (fetchMoviesByGenre st g page sb d (.error msg)).1.trending = st.trending ∧
       (fetchMoviesByGenre st g page sb d (.error msg)).1.currentPage = st.currentPage ∧
       (fetchMoviesByGenre st g page sb d (.error msg)).1.totalPages = st.totalPages ∧
       (fetchMoviesByGenre st g page sb d (.error msg)).1.searchQuery = st.searchQuery ∧
       (fetchMoviesByGenre st g page sb d (.error msg)).1.error = some msg ∧
       (fetchMoviesByGenre st g page sb d (.error msg)).1.loading = false ∧
       (fetchMoviesByGenre st g page sb d (.error msg)).1.selectedGenreId = some g)) ∧
    (∀ (st : TVState) (c : TVCategory) (page now : Nat) (msg : String),
      seriesCacheGet st.seriesCache (tvCategoryKey c page) now = none →
      ((fetchSeries st c page now (.error msg)).1.series = st.series ∧
       (fetchSeries st c page now (.error msg)).1.currentPage = st.currentPage ∧
       (fetchSeries st c page now (.error msg)).1.totalPages = st.totalPages ∧
       (fetchSeries st c page now (.error msg)).1.searchQuery = st.searchQuery ∧
       (fetchSeries st c page now (.error msg)).1.error = some msg ∧
       (fetchSeries st c page now (.error msg)).1.loading = false ∧
       (fetchSeries st c page now (.error msg)).1.currentCategory = c)) ∧
    (∀ (st : TVState) (q : String) (page now : Nat) (msg : String),
      isBlank q = false →
      seriesCacheGet st.seriesCache (tvSearchKey q page) now = none →
      ((searchForSeries st q page now (.error msg)).1.series = st.series ∧
       (searchForSeries st q page now (.error msg)).1.currentPage = st.currentPage ∧
       (searchForSeries st q page now (.error msg)).1.totalPages = st.totalPages ∧
       (searchForSeries st q page now (.error msg)).1.error = some msg ∧
       (searchForSeries st q page now (.error msg)).1.loading = false ∧
       (searchForSeries st q page now (.error msg)).1.searchQuery = q)) := by
  refine ⟨fun st page rpp msg hmiss => ?_, fun st q page rpp msg => ?_,
    fun st tw msg hmiss => ?_, fun st g page sb d msg hmiss => ?_,
    fun st c page now msg hmiss => ?_, fun st q page now msg hq hmiss => ?_⟩
  · simp [fetchMovies, hmiss]
  · simp [searchForMovies]
  · simp [fetchTrending, hmiss]
  · simp [fetchMoviesByGenre, hmiss]
  · simp [fetchSeries, hmiss]
  · simp [searchForSeries, fetchSeries, hq, hmiss]

/-- Witness for `C10_failure_atomicity_amended`: a failing
`fetchMovies(1, 40)` from the initial state. -/
theorem C10_failure_atomicity_amended_witness :
    movieCacheGet initialMovieState.movieCache (moviesCacheKey 1 40) = none ∧
    ((fetchMovies initialMovieState 1 40 (.error "boom")).1.movies =
       initialMovieState.movies ∧
     (fetchMovies initialMovieState 1 40 (.error "boom")).1.trending =
       initialMovieState.trending ∧
     (fetchMovies initialMovieState 1 40 (.error "boom")).1.currentPage =
       initialMovieState.currentPage ∧
     (fetchMovies initialMovieState 1 40 (.error "boom")).1.totalPages =
       initialMovieState.totalPages ∧
     (fetchMovies initialMovieState 1 40 (.error "boom")).1.searchQuery =
       initialMovieState.searchQuery ∧
     (fetchMovies initialMovieState 1 40 (.error "boom")).1.selectedGenreId =
       initialMovieState.selectedGenreId ∧
     (fetchMovies initialMovieState 1 40 (.error "boom")).1.error = some "boom" ∧
     (fetchMovies initialMovieState 1 40 (.error "boom")).1.loading = false) :=
  ⟨rfl, C10_failure_atomicity_amended.1 initialMovieState 1 40 "boom" rfl⟩

/-! ## C9: decimal representation facts

The cache keys interpolate numbers via `toString`, i.e. `Nat.repr`.
These lemmas show `Nat.repr` emits only digit characters and is
injective, so separator characters delimit key components unambiguously. -/

/-- The `(toString n).data` is `(Nat.repr n).data`. -/
theorem toString_nat_data (n : Nat) : (toString n).data = (Nat.repr n).data := rfl

/-- The `Nat.digitChar` of a value below 10 is a digit character. -/
theorem digitChar_isDigit {m : Nat} (h : m < 10) : (Nat.digitChar m).isDigit = true := by
  interval_cases m <;> decide

/-- The `digitVal` inverts `Nat.digitChar` below 10. -/
theorem digitVal_digitChar {m : Nat} (h : m < 10) : digitVal (Nat.digitChar m) = m := by
  interval_cases m <;> decide

/-- The `Nat.toDigitsCore` in base 10 only prepends digit characters. -/
theorem toDigitsCore_isDigit :
    ∀ (fuel n : Nat) (ds : List Char), (∀ c ∈ ds, c.isDigit = true) →
      ∀ c ∈ Nat.toDigitsCore 10 fuel n ds, c.isDigit = true := by
  intro fuel
  induction fuel with
  | zero => exact fun n ds h c hc => h c hc
  | succ fuel ih =>
    intro n ds h c hc
    simp only [Nat.toDigitsCore] at hc
    split at hc
    · rcases List.mem_cons.mp hc with rfl | hmem
      · exact digitChar_isDigit (Nat.mod_lt n (by norm_num))
      · exact h c hmem
    · refine ih (n / 10) (Nat.digitChar (n % 10) :: ds) ?_ c hc
      intro c' hc'
      rcases List.mem_cons.mp hc' with rfl | hmem
      · exact digitChar_isDigit (Nat.mod_lt n (by norm_num))
      · exact h c' hmem

/-- Every character of `Nat.repr n` is a digit. -/
theorem repr_isDigit (n : Nat) : ∀ c ∈ (Nat.repr n).data, c.isDigit = true := by
  intro c hc
  exact toDigitsCore_isDigit (n + 1) n [] (by simp) c hc

/-- The accumulator of `Nat.toDigitsCore` is a plain suffix. -/
theorem toDigitsCore_append :
    ∀ (fuel n : Nat) (ds : List Char),
      Nat.toDigitsCore 10 fuel n ds = Nat.toDigitsCore 10 fuel n [] ++ ds := by
  intro fuel
  induction fuel with
  | zero => intro n ds; rfl
  | succ fuel ih =>
    intro n ds
    simp only [Nat.toDigitsCore]
    split
    · rfl
    · rw [ih (n / 10) (Nat.digitChar (n % 10) :: ds), ih (n / 10) [Nat.digitChar (n % 10)]]
      simp

/-- Decoding after appending one digit. -/
theorem decodeDigits_append_singleton (l : List Char) (c : Char) :
    decodeDigits (l ++ [c]) = 10 * decodeDigits l + digitVal c := by
  unfold decodeDigits
  rw [List.foldl_append]
  rfl

/-- The `decodeDigits` inverts `Nat.toDigitsCore` in base 10 when the fuel
suffices (the fuel `n + 1` used by `Nat.toDigits` always does). -/
theorem decodeDigits_toDigitsCore :
    ∀ (fuel n : Nat), n < fuel → decodeDigits (Nat.toDigitsCore 10 fuel n []) = n := by
  intro fuel
  induction fuel with
  | zero => intro n h; omega
  | succ fuel ih =>
    intro n h
    simp only [Nat.toDigitsCore]
    split
    · next h0 =>
      have h1 : decodeDigits [Nat.digitChar (n % 10)] = digitVal (Nat.digitChar (n % 10)) := by
        simp [decodeDigits]
      rw [h1, digitVal_digitChar (by omega : n % 10 < 10)]
      omega
    · next h0 =>
      rw [toDigitsCore_append fuel (n / 10) [Nat.digitChar (n % 10)],
        decodeDigits_append_singleton, ih (n / 10) (by omega),
        digitVal_digitChar (by omega : n % 10 < 10)]
      omega

/-- The `decodeDigits` inverts `Nat.repr`. -/
theorem decodeDigits_repr (n : Nat) : decodeDigits (Nat.repr n).data = n :=
  decodeDigits_toDigitsCore (n + 1) n (Nat.lt_succ_self n)

/-- The `Nat.repr` is injective at the character-list level. -/
theorem repr_data_inj {m n : Nat} (h : (Nat.repr m).data = (Nat.repr n).data) : m = n := by
  have h2 := congrArg decodeDigits h
  rwa [decodeDigits_repr, decodeDigits_repr] at h2

/-- A digit character is not the dash separator. -/
theorem isDigit_ne_dash {c : Char} (h : c.isDigit = true) : c ≠ '-' := by
  intro hc
  subst hc
  exact absurd h (by decide)

/-- A digit character is not the underscore separator. -/
theorem isDigit_ne_underscore {c : Char} (h : c.isDigit = true) : c ≠ '_' := by
  intro hc
  subst hc
  exact absurd h (by decide)

/-- Splitting at a separator character that occurs in neither left part
is unambiguous. -/
theorem append_sep_inj {sep : Char} :
    ∀ (l₁ m₁ : List Char) {l₂ m₂ : List Char},
      (∀ c ∈ l₁, c ≠ sep) → (∀ c ∈ m₁, c ≠ sep) →
      l₁ ++ sep :: l₂ = m₁ ++ sep :: m₂ → l₁ = m₁ ∧ l₂ = m₂ := by
  intro l₁
  induction l₁ with
  | nil =>
    intro m₁ l₂ m₂ h1 h2 heq
    cases m₁ with
    | nil => simpa using heq
    | cons d m₁ =>
      simp only [List.nil_append, List.cons_append, List.cons.injEq] at heq
      exact absurd heq.1.symm (h2 d (List.mem_cons_self d m₁))
  | cons c l₁ ih =>
    intro m₁ l₂ m₂ h1 h2 heq
    cases m₁ with
    | nil =>
      simp only [List.nil_append, List.cons_append, List.cons.injEq] at heq
      exact absurd heq.1 (h1 c (List.mem_cons_self c l₁))
    | cons d m₁ =>
      simp only [List.cons_append, List.cons.injEq] at heq
      obtain ⟨rfl, heq2⟩ := heq
      obtain ⟨h1', h2'⟩ := ih m₁ (fun x hx => h1 x (List.mem_cons_of_mem _ hx))
        (fun x hx => h2 x (List.mem_cons_of_mem _ hx)) heq2
      exact ⟨by rw [h1'], h2'⟩

/-! ### Cache-key shapes -/

/-- Character-list shape of the `fetchMovies` key. -/
theorem moviesCacheKey_data (p r : Nat) :
    (moviesCacheKey p r).data =
      "movies-".data ++ ((Nat.repr p).data ++ '-' :: (Nat.repr r).data) := by
  simp [moviesCacheKey, String.data_append, toString_nat_data,
    show "-".data = ['-'] from rfl]

/-- Character-list shape of the `fetchMoviesByGenre` key. -/
theorem genreCacheKey_data (g p : Nat) (sb : GenreSortBy) (d : Bool) :
    (genreCacheKey g p sb d).data =
      "genre_".data ++ ((Nat.repr g).data ++ '_' :: ((Nat.repr p).data ++ '_' ::
        ((genreSortByStr sb).data ++ '_' ::
          (if d then "true" else "false").data))) := by
  cases d <;>
    simp [genreCacheKey, String.data_append, toString_nat_data,
      show "_".data = ['_'] from rfl]

/-- Character-list shape of the `fetchSeries` key. -/
theorem tvCategoryKey_data (c : TVCategory) (p : Nat) :
    (tvCategoryKey c p).data =
      (tvCategoryStr c).data ++ '_' :: (Nat.repr p).data := by
  simp [tvCategoryKey, String.data_append, toString_nat_data,
    show "_".data = ['_'] from rfl]

/-- Character-list shape of the `searchForSeries` key. -/
theorem tvSearchKey_data (q : String) (p : Nat) :
    (tvSearchKey q p).data =
      "search_".data ++ (q.data ++ '_' :: (Nat.repr p).data) := by
  simp [tvSearchKey, String.data_append, toString_nat_data,
    show "_".data = ['_'] from rfl]

/-- Strings with different first characters differ. -/
theorem ne_of_data_head? (s t : String) (h : s.data.head? ≠ t.data.head?) : s ≠ t :=
  fun he => h (he ▸ rfl)

/-- The `fetchMovies` keys are injective in page and page size. -/
theorem moviesCacheKey_inj {p r p' r' : Nat}
    (h : moviesCacheKey p r = moviesCacheKey p' r') : p = p' ∧ r = r' := by
  rw [String.ext_iff, moviesCacheKey_data, moviesCacheKey_data] at h
  have h2 := List.append_cancel_left h
  obtain ⟨hp, hr⟩ := append_sep_inj _ _
    (fun c hc => isDigit_ne_dash (repr_isDigit p c hc))
    (fun c hc => isDigit_ne_dash (repr_isDigit p' c hc)) h2
  exact ⟨repr_data_inj hp, repr_data_inj hr⟩

/-- The `fetchTrending` keys are injective in the time window. -/
theorem trendingCacheKey_inj {tw tw' : TimeWindow}
    (h : trendingCacheKey tw = trendingCacheKey tw') : tw = tw' := by
  cases tw <;> cases tw' <;> revert h <;> decide

/-- The `fetchMoviesByGenre` keys are injective in all four parameters. -/
theorem genreCacheKey_inj {g p g' p' : Nat} {sb sb' : GenreSortBy} {d d' : Bool}
    (h : genreCacheKey g p sb d = genreCacheKey g' p' sb' d') :
    g = g' ∧ p = p' ∧ sb = sb' ∧ d = d' := by
  rw [String.ext_iff, genreCacheKey_data, genreCacheKey_data] at h
  have h2 := List.append_cancel_left h
  obtain ⟨hg, h3⟩ := append_sep_inj _ _
    (fun c hc => isDigit_ne_underscore (repr_isDigit g c hc))
    (fun c hc => isDigit_ne_underscore (repr_isDigit g' c hc)) h2
  obtain ⟨hp, h4⟩ := append_sep_inj _ _
    (fun c hc => isDigit_ne_underscore (repr_isDigit p c hc))
    (fun c hc => isDigit_ne_underscore (repr_isDigit p' c hc)) h3
  refine ⟨repr_data_inj hg, repr_data_inj hp, ?_⟩
  revert h4
  cases sb <;> cases sb' <;> cases d <;> cases d' <;> decide

/-- A category fetch key and a genre fetch key never collide. -/
theorem moviesCacheKey_ne_genreCacheKey (p r g q : Nat) (sb : GenreSortBy) (d : Bool) :
    moviesCacheKey p r ≠ genreCacheKey g q sb d := by
  apply ne_of_data_head?
  rw [show (moviesCacheKey p r).data.head? = some 'm' from by
      rw [moviesCacheKey_data]; rfl,
    show (genreCacheKey g q sb d).data.head? = some 'g' from by
      rw [genreCacheKey_data]; rfl]
  decide

/-- A category fetch key and a trending key never collide. -/
theorem moviesCacheKey_ne_trendingCacheKey (p r : Nat) (tw : TimeWindow) :
    moviesCacheKey p r ≠ trendingCacheKey tw := by
  apply ne_of_data_head?
  rw [show (moviesCacheKey p r).data.head? = some 'm' from by
      rw [moviesCacheKey_data]; rfl]
  cases tw <;> decide

/-- A trending key and a genre fetch key never collide. -/
theorem trendingCacheKey_ne_genreCacheKey (tw : TimeWindow) (g q : Nat)
    (sb : GenreSortBy) (d : Bool) :
    trendingCacheKey tw ≠ genreCacheKey g q sb d := by
  apply ne_of_data_head?
  rw [show (genreCacheKey g q sb d).data.head? = some 'g' from by
      rw [genreCacheKey_data]; rfl]
  cases tw <;> decide

/-- The `tvCategoryStr` is injective. -/
theorem tvCategoryStr_inj {c c' : TVCategory} (h : tvCategoryStr c = tvCategoryStr c') :
    c = c' := by
  cases c <;> cases c' <;> revert h <;> decide

/-- The `fetchSeries` keys are injective in category and page. -/
theorem tvCategoryKey_inj {c c' : TVCategory} {p p' : Nat}
    (h : tvCategoryKey c p = tvCategoryKey c' p') : c = c' ∧ p = p' := by
  rw [String.ext_iff, tvCategoryKey_data, tvCategoryKey_data] at h
  have hrev := congrArg List.reverse h
  simp only [List.reverse_append, List.reverse_cons, List.append_assoc,
    List.singleton_append] at hrev
  obtain ⟨hp, hc⟩ := append_sep_inj _ _
    (fun c hc => isDigit_ne_underscore (repr_isDigit p c (List.mem_reverse.mp hc)))
    (fun c hc => isDigit_ne_underscore (repr_isDigit p' c (List.mem_reverse.mp hc))) hrev
  refine ⟨tvCategoryStr_inj (String.ext_iff.mpr (List.reverse_injective hc)), ?_⟩
  exact repr_data_inj (List.reverse_injective hp)

/-- The `searchForSeries` keys are injective in query and page, for any query
text (the page number occupies the digits after the last underscore). -/
theorem tvSearchKey_inj {q q' : String} {p p' : Nat}
    (h : tvSearchKey q p = tvSearchKey q' p') : q = q' ∧ p = p' := by
  rw [String.ext_iff, tvSearchKey_data, tvSearchKey_data] at h
  have h2 := List.append_cancel_left h
  have hrev := congrArg List.reverse h2
  simp only [List.reverse_append, List.reverse_cons, List.append_assoc,
    List.singleton_append] at hrev
  obtain ⟨hp, hq⟩ := append_sep_inj _ _
    (fun c hc => isDigit_ne_underscore (repr_isDigit p c (List.mem_reverse.mp hc)))
    (fun c hc => isDigit_ne_underscore (repr_isDigit p' c (List.mem_reverse.mp hc))) hrev
  exact ⟨String.ext_iff.mpr (List.reverse_injective hq),
    repr_data_inj (List.reverse_injective hp)⟩

/-- A TV category key never collides with a TV search key. -/
theorem tvCategoryKey_ne_tvSearchKey (c : TVCategory) (p : Nat) (q : String) (p' : Nat) :
    tvCategoryKey c p ≠ tvSearchKey q p' := by
  apply ne_of_data_head?
  rw [show (tvSearchKey q p').data.head? = some 's' from by
    rw [tvSearchKey_data]; rfl]
  cases c
  · rw [tvCategoryKey_data, show ((tvCategoryStr TVCategory.popular).data ++
      '_' :: (Nat.repr p).data).head? = some 'p' from rfl]
    decide
  · rw [tvCategoryKey_data, show ((tvCategoryStr TVCategory.top_rated).data ++
      '_' :: (Nat.repr p).data).head? = some 't' from rfl]
    decide
  · rw [tvCategoryKey_data, show ((tvCategoryStr TVCategory.on_air).data ++
      '_' :: (Nat.repr p).data).head? = some 'o' from rfl]
    decide

/-- C9 counterexample: two `fetchMovies(1, 40)` requests that differ
only in the active client-side genre filter (`selectedGenreId` none vs
`some 28`) compute the same cache key `movies-1-40` yet store different
item lists under it (the filtered page), so the items stored under a key
do not depend only on the parameters encoded in that key. -/
theorem C9_counterexample :
    moviesCacheKey 1 40 = moviesCacheKey 1 40 ∧
    (fetchMovies initialMovieState 1 40 (.ok samplePage)).1.movieCache
        (moviesCacheKey 1 40) ≠
      (fetchMovies { initialMovieState with selectedGenreId := some 28 } 1 40
        (.ok samplePage)).1.movieCache (moviesCacheKey 1 40) := by
  exact ⟨rfl, by decide⟩

/-- C9 (corrected): key construction is deterministic and injective
in the parameters it encodes — `movies-page-size` keys are injective in
(page, size), `trending-window` in the window, `genre_…` keys in all of
(genre id, page, sort field, direction), TV category keys in (category,
page), TV search keys in (query, page) — and keys of different operation
kinds never collide (in particular a category fetch and a genre fetch for
the same page never share a key).  But the `fetchMovies`/`fetchTrending`
keys do not encode the active `selectedGenreId` although the cached
(filtered) items depend on it, so two requests differing only in the
active client-side genre filter share a key with different contents. -/
theorem C9_cache_key_uniqueness_amended :
    (∀ p r p' r' : Nat, moviesCacheKey p r = moviesCacheKey p' r' → p = p' ∧ r = r') ∧
    (∀ tw tw' : TimeWindow, trendingCacheKey tw = trendingCacheKey tw' → tw = tw') ∧
    (∀ (g p g' p' : Nat) (sb sb' : GenreSortBy) (d d' : Bool),
      genreCacheKey g p sb d = genreCacheKey g' p' sb' d' →
      g = g' ∧ p = p' ∧ sb = sb' ∧ d = d') ∧
    (∀ (p r g q : Nat) (sb : GenreSortBy) (d : Bool),
      moviesCacheKey p r ≠ genreCacheKey g q sb d) ∧
    (∀ (p r : Nat) (tw : TimeWindow), moviesCacheKey p r ≠ trendingCacheKey tw) ∧
    (∀ (tw : TimeWindow) (g q : Nat) (sb : GenreSortBy) (d : Bool),
      trendingCacheKey tw ≠ genreCacheKey g q sb d) ∧
    (∀ (c c' : TVCategory) (p p' : Nat),
      tvCategoryKey c p = tvCategoryKey c' p' → c = c' ∧ p = p') ∧
    (∀ (q q' : String) (p p' : Nat),
      tvSearchKey q p = tvSearchKey q' p' → q = q' ∧ p = p') ∧
    (∀ (c : TVCategory) (p : Nat) (q : String) (p' : Nat),
      tvCategoryKey c p ≠ tvSearchKey q p') ∧
    ((fetchMovies initialMovieState 1 40 (.ok samplePage)).1.movieCache
        (moviesCacheKey 1 40) = some [movie2010, movie2023, movie1999] ∧
      (fetchMovies { initialMovieState with selectedGenreId := some 28 } 1 40
        (.ok samplePage)).1.movieCache (moviesCacheKey 1 40) = some [movie2023] ∧
      ([movie2010, movie2023, movie1999] : List MovieResult) ≠ [movie2023]) := by
  refine ⟨fun p r p' r' h => moviesCacheKey_inj h,
    fun tw tw' h => trendingCacheKey_inj h,
    fun g p g' p' sb sb' d d' h => genreCacheKey_inj h,
    fun p r g q sb d => moviesCacheKey_ne_genreCacheKey p r g q sb d,
    fun p r tw => moviesCacheKey_ne_trendingCacheKey p r tw,
    fun tw g q sb d => trendingCacheKey_ne_genreCacheKey tw g q sb d,
    fun c c' p p' h => tvCategoryKey_inj h,
    fun q q' p p' h => tvSearchKey_inj h,
    fun c p q p' => tvCategoryKey_ne_tvSearchKey c p q p',
    by decide, by decide, by decide⟩

/-- Witness for `C9_cache_key_uniqueness_amended`: injectivity applied at
equal concrete keys. -/
theorem C9_cache_key_uniqueness_amended_witness :
    moviesCacheKey 1 40 = moviesCacheKey 1 40 ∧ ((1 : Nat) = 1 ∧ (40 : Nat) = 40) :=
  ⟨rfl, C9_cache_key_uniqueness_amended.1 1 40 1 40 rfl⟩

end MovieApp
